import Mathlib

/-!
Shallow embedding of `src/mac_bridge_mcp/server.py` (mac-bridge-mcp).

Modelling conventions:
- A Python `dict.get(key, default)` on an optional key is an `Option` with `Option.getD`.
- Python string truthiness (`None` and `""` are falsy) is `truthyS`.
- Python calls that can raise are `Except`; an uncaught exception is a propagated
  `Except.error`.
- Float values that the code merely threads through and formats (temperatures,
  pressures, durations) are modelled opaquely as `String`, their decimal rendering;
  no property here depends on float arithmetic.
- The network and subprocess worlds are explicit arguments (the response the
  external system would give) and every operation returns, next to its result
  string, the list of requests/API calls it issued, so that "zero network calls"
  is a statement about that list.
-/

namespace MacBridge

/-- Python truthiness of an optional string: `None` and `""` are falsy. -/
def truthyS : Option String → Bool
  | none => false
  | some s => s != ""

/-- The `"hue"` record of `config.json`: keys `bridge_ip` and `app_key`. -/
structure HueSettings where
  bridge_ip : Option String
  app_key : Option String
deriving DecidableEq

/-- The `"vaillant"` record of `config.json`. -/
structure VaillantSettings where
  email : Option String
  password : Option String
  brand : Option String
  country : Option String
deriving DecidableEq

/-- The Configuration Document: the shape of `config.json` that the code reads. -/
structure Config where
  hue : Option HueSettings
  vaillant : Option VaillantSettings
deriving DecidableEq

/-- The empty document `\x7b\x7d`: every lookup misses. -/
def emptyConfig : Config := ⟨none, none⟩

/-- State of the file at `CONFIG_PATH`: absent, or present with the outcome
that `json.loads` yields on its text (`Except.error` = a raised decode error). -/
inductive FileState where
  | absent
  | present (loads : Except String Config)

/-- `_load_config`: if the file exists, return the outcome of `json.loads`
(a raised decode error propagates, there is no `try`); otherwise return `\x7b\x7d`. -/
def _load_config : FileState → Except String Config
  | .present loads => loads
  | .absent => .ok emptyConfig

/-- `_hue_config`: `(bridge_ip, app_key)`, or `none` when either is missing/empty. -/
def _hue_config (c : Config) : Option (String × String) :=
  let hue := c.hue.getD ⟨none, none⟩
  let bridge_ip := hue.bridge_ip
  let app_key := hue.app_key
  if !truthyS bridge_ip || !truthyS app_key then none
  else some (bridge_ip.getD "", app_key.getD "")

/-- `_vaillant_config`: `(email, password, brand, country)` with defaults for
`brand`/`country`, or `none` when email or password is missing/empty. -/
def _vaillant_config (c : Config) : Option (String × String × String × String) :=
  let v := c.vaillant.getD ⟨none, none, none, none⟩
  if !truthyS v.email || !truthyS v.password then none
  else some (v.email.getD "", v.password.getD "",
             v.brand.getD "vaillant", v.country.getD "czechrepublic")

/-! ## macOS subprocess model (`run_shortcut`) -/

/-- Behaviour of the external `shortcuts run` process: how long it would run,
and its exit code / output streams if allowed to finish. -/
structure ProcOutcome where
  duration : Nat
  returncode : Int
  stdout : String
  stderr : String
deriving DecidableEq

/-- The exception `subprocess.TimeoutExpired`. -/
inductive SubprocessError where
  | timeoutExpired (timeout : Nat)
deriving DecidableEq

/-- `subprocess.run` with an optional `timeout`: raises `TimeoutExpired` when the
process runs longer than the bound, otherwise completes with the process outcome. -/
def subprocess_run (timeout : Option Nat) (p : ProcOutcome) : Except SubprocessError ProcOutcome :=
  match timeout with
  | some t => if t < p.duration then .error (.timeoutExpired t) else .ok p
  | none => .ok p

/-- `run_shortcut`: runs `shortcuts run name` with `timeout=30`; a
`TimeoutExpired` from `subprocess.run` is not caught and propagates. -/
def run_shortcut (name : String) (input_text : Option String) (p : ProcOutcome) :
    Except SubprocessError String := do
  let result ← subprocess_run (some 30) p
  let output := result.stdout.trim
  if result.returncode != 0 then
    return "Error: " ++ result.stderr
  return (if output != "" then output else "Shortcut '" ++ name ++ "' executed")

/-! ## Philips Hue model -/

inductive HttpMethod where
  | get
  | put
deriving DecidableEq

/-- The partial update body built by `hue_set_light`; each present field holds the
value placed into the JSON body (brightness already clamped, mirek already clamped). -/
structure SetLightBody where
  onVal : Option Bool
  brightness : Option Int
  color_temp : Option Int
deriving DecidableEq

/-- Python `if not body` on the update dict: true iff no field was added. -/
def SetLightBody.isEmpty (b : SetLightBody) : Bool :=
  b.onVal.isNone && b.brightness.isNone && b.color_temp.isNone

/-- JSON rendering of a bool, as `json.dumps` prints it. -/
def jbool : Bool → String
  | true => "true"
  | false => "false"

/-- A one-key JSON object `\x7b"k": v\x7d` as `json.dumps` prints it. -/
def jwrap (k v : String) : String := "\x7b\"" ++ k ++ "\": " ++ v ++ "\x7d"

/-- `json.dumps(body)` for the update dict, keys in insertion order. -/
def SetLightBody.dumps (b : SetLightBody) : String :=
  let fields :=
    (match b.onVal with
     | some v => ["\"on\": " ++ jwrap "on" (jbool v)]
     | none => []) ++
    (match b.brightness with
     | some v => ["\"dimming\": " ++ jwrap "brightness" (toString v)]
     | none => []) ++
    (match b.color_temp with
     | some v => ["\"color_temperature\": " ++ jwrap "mirek" (toString v)]
     | none => [])
  "\x7b" ++ String.intercalate ", " fields ++ "\x7d"

/-- Request body of a Hue PUT. -/
inductive HueBody where
  | setLight (body : SetLightBody)
  | recallActive
deriving DecidableEq

/-- One HTTPS request to the bridge (method, url, `hue-application-key` header, body). -/
structure NetRequest where
  method : HttpMethod
  url : String
  app_key : String
  body : Option HueBody
deriving DecidableEq

/-- One element of the `data` array of the lights collection, reduced to the
fields the code reads (`metadata.name`, `id`, `on.on`, `dimming.brightness`). -/
structure LightJson where
  metadata_name : Option String
  id : Option String
  on_on : Option Bool
  dimming_brightness : Option Int
deriving DecidableEq

/-- Response of the bridge to the lights GET: status, raw text, and what
`resp.json().get("data", [])` yields. -/
structure LightsResponse where
  status_code : Nat
  text : String
  data : List LightJson
deriving DecidableEq

/-- One element of the `data` array of the scenes collection. -/
structure SceneJson where
  metadata_name : Option String
  id : Option String
deriving DecidableEq

/-- Response of the bridge to the scenes GET. -/
structure ScenesResponse where
  status_code : Nat
  text : String
  data : List SceneJson
deriving DecidableEq

/-- Response of the bridge to a PUT (set light / activate scene). -/
structure HttpResponse where
  status_code : Nat
  text : String
deriving DecidableEq

/-- The per-light line rendered by `hue_list_lights`. -/
def renderLight (light : LightJson) : String :=
  "- " ++ light.metadata_name.getD "Unknown" ++ " (id: " ++ light.id.getD "?" ++ ") — " ++
    (if light.on_on.getD false then "ON" else "OFF") ++ ", brightness: " ++
    toString (light.dimming_brightness.getD 0) ++ "%"

/-- `hue_list_lights`: not-configured check, GET the lights collection, render. -/
def hue_list_lights (c : Config) (resp : LightsResponse) : String × List NetRequest :=
  match _hue_config c with
  | none => ("Error: Hue not configured. Set bridge_ip and app_key in config.json", [])
  | some (bridge_ip, app_key) =>
    let req : NetRequest :=
      ⟨.get, "https://" ++ bridge_ip ++ "/clip/v2/resource/light", app_key, none⟩
    if resp.status_code != 200 then
      ("Error " ++ toString resp.status_code ++ ": " ++ resp.text, [req])
    else
      let results := resp.data.map renderLight
      ((if results.isEmpty then "No lights found" else String.intercalate "\n" results), [req])

/-- The body `hue_set_light` builds from its provided optional fields:
brightness via `max(0, min(100, ·))`, color_temp via `max(153, min(500, ·))`. -/
def buildSetLightBody (onVal : Option Bool) (brightness : Option Int) (color_temp : Option Int) :
    SetLightBody :=
  ⟨onVal, brightness.map (fun b => max 0 (min 100 b)),
       color_temp.map (fun ct => max 153 (min 500 ct))⟩

/-- `hue_set_light`: not-configured check, build the partial body, reject an empty
body before any request, otherwise PUT to the light resource. -/
def hue_set_light (c : Config) (resp : HttpResponse) (light_id : String)
    (onVal : Option Bool) (brightness : Option Int) (color_temp : Option Int) :
    String × List NetRequest :=
  match _hue_config c with
  | none => ("Error: Hue not configured. Set bridge_ip and app_key in config.json", [])
  | some (bridge_ip, app_key) =>
    let body := buildSetLightBody onVal brightness color_temp
    if body.isEmpty then
      ("Error: Specify at least one of: on, brightness, color_temp", [])
    else
      let req : NetRequest :=
        ⟨.put, "https://" ++ bridge_ip ++ "/clip/v2/resource/light/" ++ light_id,
         app_key, some (.setLight body)⟩
      if resp.status_code == 200 then
        ("Light " ++ light_id ++ " updated: " ++ body.dumps, [req])
      else
        ("Error " ++ toString resp.status_code ++ ": " ++ resp.text, [req])

/-- The per-scene line rendered by `hue_list_scenes`. -/
def renderScene (scene : SceneJson) : String :=
  "- " ++ scene.metadata_name.getD "Unknown" ++ " (id: " ++ scene.id.getD "?" ++ ")"

/-- `hue_list_scenes`: not-configured check, GET the scenes collection, render. -/
def hue_list_scenes (c : Config) (resp : ScenesResponse) : String × List NetRequest :=
  match _hue_config c with
  | none => ("Error: Hue not configured. Set bridge_ip and app_key in config.json", [])
  | some (bridge_ip, app_key) =>
    let req : NetRequest :=
      ⟨.get, "https://" ++ bridge_ip ++ "/clip/v2/resource/scene", app_key, none⟩
    if resp.status_code != 200 then
      ("Error " ++ toString resp.status_code ++ ": " ++ resp.text, [req])
    else
      let results := resp.data.map renderScene
      ((if results.isEmpty then "No scenes found" else String.intercalate "\n" results), [req])

/-- `hue_activate_scene`: not-configured check, PUT a recall-active command. -/
def hue_activate_scene (c : Config) (resp : HttpResponse) (scene_id : String) :
    String × List NetRequest :=
  match _hue_config c with
  | none => ("Error: Hue not configured. Set bridge_ip and app_key in config.json", [])
  | some (bridge_ip, app_key) =>
    let req : NetRequest :=
      ⟨.put, "https://" ++ bridge_ip ++ "/clip/v2/resource/scene/" ++ scene_id,
       app_key, some .recallActive⟩
    if resp.status_code == 200 then
      ("Scene " ++ scene_id ++ " activated", [req])
    else
      ("Error " ++ toString resp.status_code ++ ": " ++ resp.text, [req])

/-! ## Vaillant (myPyllant) model -/

/-- The `heating` sub-object of a zone, reduced to the field the code reads. -/
structure ZoneHeating where
  operation_mode_heating : String
deriving DecidableEq

/-- A heating zone of a system snapshot. `current_special_function` is optional;
`none` stands for the Python-falsy values (`None`, `""`). -/
structure Zone where
  name : String
  current_special_function : Option String
  heating : ZoneHeating
  current_room_temperature : String
  desired_room_temperature_setpoint : String
deriving DecidableEq

/-- A domestic-hot-water circuit. `current_dhw_temperature = none` stands for the
Python-falsy values (`None`, `0.0`), which render as `N/A`. -/
structure Dhw where
  current_dhw_temperature : Option String
  tapping_setpoint : String
  operation_mode_dhw : String
  is_cylinder_boosting : Bool
deriving DecidableEq

/-- The `home` sub-object of a system. `home_name = none` stands for the
Python-falsy values (`None`, `""`), on which the code falls back to `nomenclature`. -/
structure Home where
  home_name : Option String
  nomenclature : String
deriving DecidableEq

/-- One system snapshot as yielded by `api.get_systems()`. -/
structure VSystem where
  home : Home
  water_pressure : String
  outdoor_temperature : String
  zones : List Zone
  domestic_hot_water : List Dhw
deriving DecidableEq

/-- The value `datetime.strptime(s, "%Y-%m-%d").replace(tzinfo=timezone.utc)`:
a calendar date at UTC midnight (all time fields zero). -/
structure UtcDate where
  year : Nat
  month : Nat
  day : Nat
deriving DecidableEq

/-- One call issued on the myPyllant API session (network interactions with the
cloud backend). All constructors except `getSystems` are mutations. -/
inductive VCall where
  | getSystems
  | quickVetoZoneTemperature (zone : Zone) (temperature duration_hours : String)
  | cancelQuickVetoZoneTemperature (zone : Zone)
  | setHoliday (system : VSystem) (start finish : UtcDate)
  | cancelHoliday (system : VSystem)
  | boostDomesticHotWater (dhw : Dhw)
  | setDomesticHotWaterTemperature (dhw : Dhw) (temperature : String)
deriving DecidableEq

/-- Python `str(bool)` as an f-string renders it. -/
def pyBool : Bool → String
  | true => "True"
  | false => "False"

/-- The test `z.current_special_function and z.current_special_function != "NONE"`. -/
def zoneSpecialActive (z : Zone) : Bool :=
  truthyS z.current_special_function && z.current_special_function.getD "" != "NONE"

/-- The `for z in system.zones: ... break / else:` scan of `vaillant_status`:
the first zone with an active special function yields its line and stops the
scan; if no zone has one, the `else` arm yields the holiday-off line. -/
def specialFunctionLines : List Zone → List String
  | [] => ["Holiday mode: off"]
  | z :: zs =>
    if zoneSpecialActive z then
      ["Special function: " ++ z.current_special_function.getD ""]
    else specialFunctionLines zs

/-- The per-zone line of `vaillant_status` (mode falls back from the special
function, when truthy, to the base heating mode). -/
def zoneLine (z : Zone) : String :=
  "Zone '" ++ z.name ++ "': " ++ z.current_room_temperature ++ "°C (target: " ++
    z.desired_room_temperature_setpoint ++ "°C, mode: " ++
    (if truthyS z.current_special_function then z.current_special_function.getD ""
     else z.heating.operation_mode_heating) ++ ")"

/-- The per-circuit hot-water line of `vaillant_status`. -/
def dhwLine (dhw : Dhw) : String :=
  "Hot water: " ++
    (match dhw.current_dhw_temperature with
     | some t => t ++ "°C"
     | none => "N/A") ++
    " (target: " ++ dhw.tapping_setpoint ++ "°C, mode: " ++ dhw.operation_mode_dhw ++
    ", boosting: " ++ pyBool dhw.is_cylinder_boosting ++ ")"

/-- All lines `vaillant_status` appends for one system. -/
def renderSystem (s : VSystem) : List String :=
  ("System: " ++
    (if truthyS s.home.home_name then s.home.home_name.getD "" else s.home.nomenclature)) ::
  ("Water pressure: " ++ s.water_pressure ++ " bar") ::
  ("Outdoor temp: " ++ s.outdoor_temperature ++ "°C") ::
  (specialFunctionLines s.zones ++ s.zones.map zoneLine ++ s.domestic_hot_water.map dhwLine)

/-- The full `lines` list accumulated by `vaillant_status` over all systems. -/
def statusLines (systems : List VSystem) : List String :=
  (systems.map renderSystem).flatten

/-- `vaillant_status`: not-configured check, then render every system; an empty
lines list (zero systems) yields the informational no-systems message. -/
def vaillant_status (c : Config) (systems : List VSystem) : String × List VCall :=
  match _vaillant_config c with
  | none => ("Error: Vaillant not configured. Set email and password in config.json", [])
  | some _ =>
    let lines := statusLines systems
    ((if lines.isEmpty then "No systems found" else String.intercalate "\n" lines),
     [.getSystems])

/-- `vaillant_set_temperature`: quick veto on the first zone of the first system;
the loop body returns on its first iteration, the post-loop return handles an
empty enumeration. -/
def vaillant_set_temperature (c : Config) (systems : List VSystem)
    (temperature : String) (duration_hours : String) : String × List VCall :=
  match _vaillant_config c with
  | none => ("Error: Vaillant not configured", [])
  | some _ =>
    match systems with
    | [] => ("Error: No systems found", [.getSystems])
    | system :: _ =>
      match system.zones with
      | [] => ("Error: No heating zones found", [.getSystems])
      | zone :: _ =>
        ("Temperature set to " ++ temperature ++ "°C for " ++ duration_hours ++
           "h on zone '" ++ zone.name ++ "'",
         [.getSystems, .quickVetoZoneTemperature zone temperature duration_hours])

/-- `vaillant_cancel_temperature_override`: cancel the veto on the first zone of
the first system. -/
def vaillant_cancel_temperature_override (c : Config) (systems : List VSystem) :
    String × List VCall :=
  match _vaillant_config c with
  | none => ("Error: Vaillant not configured", [])
  | some _ =>
    match systems with
    | [] => ("Error: No systems found", [.getSystems])
    | system :: _ =>
      match system.zones with
      | [] => ("Error: No heating zones found", [.getSystems])
      | zone :: _ =>
        ("Temperature override cancelled on zone '" ++ zone.name ++ "'",
         [.getSystems, .cancelQuickVetoZoneTemperature zone])

/-- The raised `ValueError` of `datetime.strptime` / the `datetime` constructor. -/
inductive PyValueError where
  | timeDataMismatch (data fmt : String)
  | dateOutOfRange
deriving DecidableEq

/-- Split a character list on `-`, like Python `str.split("-")` for this
single-character separator (used by the `%Y-%m-%d` match). -/
def splitDash : List Char → List (List Char)
  | [] => [[]]
  | c :: cs =>
    let rest := splitDash cs
    if c = '-' then [] :: rest
    else
      match rest with
      | r :: rs => (c :: r) :: rs
      | [] => [[c]]

/-- Decimal value of a digit list. -/
def digitsVal (l : List Char) : Nat :=
  l.foldl (fun acc c => acc * 10 + (c.toNat - 48)) 0

/-- The regex match CPython's `_strptime` performs for format `%Y-%m-%d`:
`%Y` is exactly four digits, `%m` is one or two digits valued 1..12, `%d` is one
or two digits valued 1..31, with nothing left over. -/
def matchYmd (s : String) : Option (Nat × Nat × Nat) :=
  match splitDash s.data with
  | [ys, ms, ds] =>
    if ys.length = 4 ∧ ys.all Char.isDigit
        ∧ 1 ≤ ms.length ∧ ms.length ≤ 2 ∧ ms.all Char.isDigit
        ∧ 1 ≤ ds.length ∧ ds.length ≤ 2 ∧ ds.all Char.isDigit then
      let y := digitsVal ys
      let m := digitsVal ms
      let d := digitsVal ds
      if 1 ≤ m ∧ m ≤ 12 ∧ 1 ≤ d ∧ d ≤ 31 then some (y, m, d) else none
    else none
  | _ => none

/-- Day count of a month in the proleptic Gregorian calendar (as `datetime` uses). -/
def daysInMonth (y m : Nat) : Nat :=
  if m = 2 then
    (if (y % 4 = 0 ∧ y % 100 ≠ 0) ∨ y % 400 = 0 then 29 else 28)
  else if m = 4 ∨ m = 6 ∨ m = 9 ∨ m = 11 then 30
  else 31

/-- `datetime.strptime(s, "%Y-%m-%d")`: a failed match raises
`ValueError: time data ... does not match format ...`; a matched date whose day
does not exist in its month (or year 0) raises the constructor's `ValueError`. -/
def strptime_Ymd (s : String) : Except PyValueError UtcDate :=
  match matchYmd s with
  | none => .error (.timeDataMismatch s "%Y-%m-%d")
  | some (y, m, d) =>
    if y = 0 ∨ daysInMonth y m < d then .error .dateOutOfRange
    else .ok ⟨y, m, d⟩

/-- `vaillant_set_holiday`: not-configured check, then both dates are parsed
(uncaught `ValueError` propagates, before the API session is even opened), then
holiday mode is set on the first system. -/
def vaillant_set_holiday (c : Config) (systems : List VSystem)
    (start_date end_date : String) : Except PyValueError (String × List VCall) :=
  match _vaillant_config c with
  | none => .ok ("Error: Vaillant not configured", [])
  | some _ => do
    let start ← strptime_Ymd start_date
    let finish ← strptime_Ymd end_date
    match systems with
    | [] => return ("Error: No systems found", [.getSystems])
    | system :: _ =>
      return ("Holiday mode set: " ++ start_date ++ " to " ++ end_date,
              [.getSystems, .setHoliday system start finish])

/-- `vaillant_cancel_holiday`: cancel holiday mode on the first system. -/
def vaillant_cancel_holiday (c : Config) (systems : List VSystem) : String × List VCall :=
  match _vaillant_config c with
  | none => ("Error: Vaillant not configured", [])
  | some _ =>
    match systems with
    | [] => ("Error: No systems found", [.getSystems])
    | system :: _ => ("Holiday mode cancelled", [.getSystems, .cancelHoliday system])

/-- `vaillant_boost_hot_water`: boost the first hot-water circuit of the first system. -/
def vaillant_boost_hot_water (c : Config) (systems : List VSystem) : String × List VCall :=
  match _vaillant_config c with
  | none => ("Error: Vaillant not configured", [])
  | some _ =>
    match systems with
    | [] => ("Error: No systems found", [.getSystems])
    | system :: _ =>
      match system.domestic_hot_water with
      | [] => ("Error: No hot water tank found", [.getSystems])
      | dhw :: _ => ("Hot water boost started", [.getSystems, .boostDomesticHotWater dhw])

/-- `vaillant_set_hot_water_temperature`: set the target on the first circuit of
the first system. -/
def vaillant_set_hot_water_temperature (c : Config) (systems : List VSystem)
    (temperature : String) : String × List VCall :=
  match _vaillant_config c with
  | none => ("Error: Vaillant not configured", [])
  | some _ =>
    match systems with
    | [] => ("Error: No systems found", [.getSystems])
    | system :: _ =>
      match system.domestic_hot_water with
      | [] => ("Error: No hot water tank found", [.getSystems])
      | dhw :: _ =>
        ("Hot water temperature set to " ++ temperature ++ "°C",
         [.getSystems, .setDomesticHotWaterTemperature dhw temperature])


/-! ## Concrete fixtures used by witnesses -/

/-- A configured Hue document. -/
def cfgHue : Config := ⟨some ⟨some "10.0.0.2", some "appkey"⟩, none⟩

/-- A configured Vaillant document. -/
def cfgVaillant : Config := ⟨none, some ⟨some "user@example.com", some "pw", none, none⟩⟩

/-- A zone whose special function is `"NONE"` (inactive). -/
def zoneQuiet : Zone := ⟨"Kitchen", some "NONE", ⟨"AUTO"⟩, "20.0", "20.5"⟩

/-- A zone with special function `"AWAY"` active. -/
def zoneAway : Zone := ⟨"Living", some "AWAY", ⟨"AUTO"⟩, "21.0", "21.5"⟩

/-- A system with no special function active anywhere. -/
def sysOff : VSystem := ⟨⟨some "Home", "VR"⟩, "1.2", "8.5", [zoneQuiet], []⟩

/-- A system whose second zone has an active special function. -/
def sysHol : VSystem := ⟨⟨none, "VR921"⟩, "1.1", "3.0", [zoneQuiet, zoneAway], []⟩

/-! ## Helper lemmas -/

/-- Bind on a successful `Except` is application (kernel-level fact used to
step through the monadic embedding). -/
lemma except_ok_bind {ε α β : Type} (a : α) (f : α → Except ε β) :
    ((Except.ok a : Except ε α) >>= f) = f a := rfl

/-- Two strings differing at some character position differ. -/
lemma string_ne_of_getD (s t : String) (i : Nat)
    (h : s.data.getD i 'Q' ≠ t.data.getD i 'Q') : s ≠ t :=
  fun hc => h (by rw [hc])

/-- The special-function scan yields the line of the first active zone, or the
holiday-off line when no zone is active. -/
lemma specialFunctionLines_eq (zs : List Zone) :
    specialFunctionLines zs =
      match zs.find? zoneSpecialActive with
      | some z => ["Special function: " ++ z.current_special_function.getD ""]
      | none => ["Holiday mode: off"] := by
  induction zs with
  | nil => rfl
  | cons z zs ih =>
    cases h : zoneSpecialActive z with
    | true => simp [specialFunctionLines, List.find?_cons, h]
    | false => simp [specialFunctionLines, List.find?_cons, h, ih]

/-! ## Claim theorems -/

/-- Claim C1 counterexample: with the backing file present but holding malformed
JSON, `_load_config` does not return the empty document; the `json.loads`
error propagates to the caller (there is no exception handler). -/
theorem load_config_malformed_not_empty :
    _load_config (FileState.present (Except.error "Expecting value: line 1 column 1 (char 0)")) =
      Except.error "Expecting value: line 1 column 1 (char 0)" ∧
    _load_config (FileState.present (Except.error "Expecting value: line 1 column 1 (char 0)")) ≠
      Except.ok emptyConfig := by
  exact ⟨rfl, by simp [_load_config]⟩

/-- Claim C1 (amended): `_load_config` returns the empty document when the file
is absent and otherwise returns exactly what `json.loads` yields on the file's
text — the parsed document when well-formed, a propagated error when malformed. -/
theorem load_config_behavior :
    _load_config FileState.absent = Except.ok emptyConfig ∧
    (∀ r, _load_config (FileState.present r) = r) :=
  ⟨rfl, fun _ => rfl⟩

/-- Claim C2 counterexample: an automation running 31 seconds makes
`run_shortcut` raise `subprocess.TimeoutExpired` (uncaught); no result string —
in particular no Timeout Failure string — is returned to the caller. -/
theorem run_shortcut_timeout_is_exception :
    run_shortcut "Slow" none ⟨31, 0, "", ""⟩ =
      Except.error (SubprocessError.timeoutExpired 30) ∧
    (run_shortcut "Slow" none ⟨31, 0, "", ""⟩).isOk = false :=
  ⟨rfl, rfl⟩

/-- Claim C2 (amended): `run_shortcut` enforces the hard 30-second bound — a
process running longer than 30 seconds yields the `TimeoutExpired` exception
(so the call does not hang, but the exception propagates unmapped instead of
being returned as a Failure string); within the bound the call returns a string. -/
theorem run_shortcut_timeout_behavior (name : String) (input_text : Option String)
    (p : ProcOutcome) :
    (30 < p.duration →
      run_shortcut name input_text p = Except.error (SubprocessError.timeoutExpired 30)) ∧
    (p.duration ≤ 30 → ∃ s, run_shortcut name input_text p = Except.ok s) := by
  constructor
  · intro h
    simp only [run_shortcut, subprocess_run, if_pos h]
    rfl
  · intro h
    have h30 : ¬ (30 < p.duration) := by omega
    simp only [run_shortcut, subprocess_run, if_neg h30, except_ok_bind]
    by_cases hr : (p.returncode != 0) = true
    · rw [if_pos hr]
      exact ⟨_, rfl⟩
    · rw [if_neg hr]
      exact ⟨_, rfl⟩

/-- Claim C2 witness. -/
theorem run_shortcut_timeout_behavior_witness :
    30 < 45 ∧
    run_shortcut "Backup" (some "hi") ⟨45, 1, "out", "err"⟩ =
      Except.error (SubprocessError.timeoutExpired 30) :=
  ⟨by decide, (run_shortcut_timeout_behavior "Backup" (some "hi") ⟨45, 1, "out", "err"⟩).1 (by decide)⟩

/-- Claim C3: on the empty Configuration Document every Hue operation and every
Vaillant operation returns its not-configured Failure (a string beginning with
"Error") and the list of issued network calls is empty. -/
theorem empty_config_all_ops_not_configured :
    (∀ resp, hue_list_lights emptyConfig resp =
      ("Error: Hue not configured. Set bridge_ip and app_key in config.json", [])) ∧
    (∀ resp light_id onVal brightness color_temp,
      hue_set_light emptyConfig resp light_id onVal brightness color_temp =
        ("Error: Hue not configured. Set bridge_ip and app_key in config.json", [])) ∧
    (∀ resp, hue_list_scenes emptyConfig resp =
      ("Error: Hue not configured. Set bridge_ip and app_key in config.json", [])) ∧
    (∀ resp scene_id, hue_activate_scene emptyConfig resp scene_id =
      ("Error: Hue not configured. Set bridge_ip and app_key in config.json", [])) ∧
    (∀ systems, vaillant_status emptyConfig systems =
      ("Error: Vaillant not configured. Set email and password in config.json", [])) ∧
    (∀ systems t d, vaillant_set_temperature emptyConfig systems t d =
      ("Error: Vaillant not configured", [])) ∧
    (∀ systems, vaillant_cancel_temperature_override emptyConfig systems =
      ("Error: Vaillant not configured", [])) ∧
    (∀ systems sd ed, vaillant_set_holiday emptyConfig systems sd ed =
      Except.ok ("Error: Vaillant not configured", [])) ∧
    (∀ systems, vaillant_cancel_holiday emptyConfig systems =
      ("Error: Vaillant not configured", [])) ∧
    (∀ systems, vaillant_boost_hot_water emptyConfig systems =
      ("Error: Vaillant not configured", [])) ∧
    (∀ systems t, vaillant_set_hot_water_temperature emptyConfig systems t =
      ("Error: Vaillant not configured", [])) :=
  ⟨fun _ => rfl, fun _ _ _ _ _ => rfl, fun _ => rfl, fun _ _ => rfl, fun _ => rfl,
   fun _ _ _ => rfl, fun _ => rfl, fun _ _ _ => rfl, fun _ => rfl, fun _ => rfl,
   fun _ _ => rfl⟩

/-- Claim C4: for every provided brightness the value placed in the update body
is `max 0 (min 100 b)`, which lies in `[0,100]` and clamps out-of-range inputs
to the nearest bound; likewise color_temp with `[153,500]`; and such a call is
never rejected — when credentials resolve the PUT request carries that body. -/
theorem hue_set_light_clamps (onVal : Option Bool) (b ct : Int) :
    (buildSetLightBody onVal (some b) (some ct)).brightness = some (max 0 (min 100 b)) ∧
    (buildSetLightBody onVal (some b) (some ct)).color_temp = some (max 153 (min 500 ct)) ∧
    (0 ≤ max 0 (min 100 b) ∧ max 0 (min 100 b) ≤ 100) ∧
    (153 ≤ max 153 (min 500 ct) ∧ max 153 (min 500 ct) ≤ 500) ∧
    (b < 0 → max 0 (min 100 b) = 0) ∧
    (100 < b → max 0 (min 100 b) = 100) ∧
    (0 ≤ b → b ≤ 100 → max 0 (min 100 b) = b) ∧
    (ct < 153 → max 153 (min 500 ct) = 153) ∧
    (500 < ct → max 153 (min 500 ct) = 500) ∧
    (153 ≤ ct → ct ≤ 500 → max 153 (min 500 ct) = ct) ∧
    (∀ (c : Config) (resp : HttpResponse) (light_id ip key : String),
      _hue_config c = some (ip, key) →
      (hue_set_light c resp light_id onVal (some b) (some ct)).2 =
        [⟨HttpMethod.put, "https://" ++ ip ++ "/clip/v2/resource/light/" ++ light_id, key,
          some (HueBody.setLight (buildSetLightBody onVal (some b) (some ct)))⟩]) := by
  refine ⟨rfl, rfl, ⟨by omega, by omega⟩, ⟨by omega, by omega⟩,
    fun h => by omega, fun h => by omega, fun h1 h2 => by omega,
    fun h => by omega, fun h => by omega, fun h1 h2 => by omega, ?_⟩
  intro c resp light_id ip key h
  simp only [hue_set_light, h]
  have hne : (buildSetLightBody onVal (some b) (some ct)).isEmpty = false := by
    simp [buildSetLightBody, SetLightBody.isEmpty]
  simp only [hne, Bool.false_eq_true, if_false]
  split <;> rfl

/-- Claim C4 witness. -/
theorem hue_set_light_clamps_witness :
    ((-5 : Int) < 0 ∧ max 0 (min 100 (-5 : Int)) = 0) ∧
    (500 < (1000 : Int) ∧ max 153 (min 500 (1000 : Int)) = 500) ∧
    _hue_config cfgHue = some ("10.0.0.2", "appkey") ∧
    (hue_set_light cfgHue ⟨200, "ok"⟩ "L1" none (some (-5)) (some 1000)).2 =
      [⟨HttpMethod.put, "https://10.0.0.2/clip/v2/resource/light/L1", "appkey",
        some (HueBody.setLight ⟨none, some 0, some 500⟩)⟩] := by
  obtain ⟨h1, h2, h3, h4, h5, h6, h7, h8, h9, h10, h11⟩ := hue_set_light_clamps none (-5) 1000
  refine ⟨⟨by decide, h5 (by decide)⟩, ⟨by decide, h9 (by decide)⟩, rfl, ?_⟩
  exact (h11 cfgHue ⟨200, "ok"⟩ "L1" "10.0.0.2" "appkey" rfl).trans (by decide)

/-- Claim C5: a `hue_set_light` call providing none of `on`, `brightness`,
`color_temp` issues zero network requests, and when credentials resolve it
returns the no-fields Failure string. -/
theorem hue_set_light_no_fields (c : Config) (resp : HttpResponse) (light_id : String) :
    (hue_set_light c resp light_id none none none).2 = [] ∧
    (∀ ip key, _hue_config c = some (ip, key) →
      (hue_set_light c resp light_id none none none).1 =
        "Error: Specify at least one of: on, brightness, color_temp") := by
  cases h : _hue_config c with
  | none =>
    refine ⟨by simp [hue_set_light, h], ?_⟩
    intro ip key hk
    cases hk
  | some cfg =>
    obtain ⟨ip, key⟩ := cfg
    exact ⟨by simp [hue_set_light, h, buildSetLightBody, SetLightBody.isEmpty],
           fun _ _ _ => by simp [hue_set_light, h, buildSetLightBody, SetLightBody.isEmpty]⟩

/-- Claim C5 witness. -/
theorem hue_set_light_no_fields_witness :
    _hue_config cfgHue = some ("10.0.0.2", "appkey") ∧
    (hue_set_light cfgHue ⟨200, "ok"⟩ "L1" none none none).1 =
      "Error: Specify at least one of: on, brightness, color_temp" ∧
    (hue_set_light cfgHue ⟨200, "ok"⟩ "L1" none none none).2 = [] :=
  ⟨rfl, (hue_set_light_no_fields cfgHue ⟨200, "ok"⟩ "L1").2 "10.0.0.2" "appkey" rfl,
   (hue_set_light_no_fields cfgHue ⟨200, "ok"⟩ "L1").1⟩

/-- Claim C6 counterexample: with credentials configured and a malformed
`start_date`, `vaillant_set_holiday` does not return any Failure string — the
`strptime` `ValueError` propagates as an exception (before any network call:
the error result carries no issued call). -/
theorem vaillant_set_holiday_malformed_is_exception :
    vaillant_set_holiday cfgVaillant [sysHol] "not-a-date" "2025-01-02" =
      Except.error (PyValueError.timeDataMismatch "not-a-date" "%Y-%m-%d") ∧
    (vaillant_set_holiday cfgVaillant [sysHol] "not-a-date" "2025-01-02").isOk = false :=
  ⟨rfl, rfl⟩

/-- Claim C6 (amended): a malformed `start_date` or `end_date` makes
`vaillant_set_holiday` raise the `strptime` `ValueError` before any network
call (the error carries no issued API call); the exception propagates instead
of a Failure string naming the field; well-formed dates parse to calendar
dates at UTC midnight and are passed to `set_holiday` on the first system. -/
theorem vaillant_set_holiday_validation (c : Config)
    (cred : String × String × String × String) (systems : List VSystem) (sd ed : String)
    (h : _vaillant_config c = some cred) :
    (∀ e, strptime_Ymd sd = Except.error e →
      vaillant_set_holiday c systems sd ed = Except.error e) ∧
    (∀ d1 e, strptime_Ymd sd = Except.ok d1 → strptime_Ymd ed = Except.error e →
      vaillant_set_holiday c systems sd ed = Except.error e) ∧
    (∀ d1 d2 s rest, strptime_Ymd sd = Except.ok d1 → strptime_Ymd ed = Except.ok d2 →
      systems = s :: rest →
      vaillant_set_holiday c systems sd ed =
        Except.ok ("Holiday mode set: " ++ sd ++ " to " ++ ed,
                   [VCall.getSystems, VCall.setHoliday s d1 d2])) := by
  refine ⟨?_, ?_, ?_⟩
  · intro e he
    simp only [vaillant_set_holiday, h, he]
    rfl
  · intro d1 e h1 h2
    simp only [vaillant_set_holiday, h, h1, h2]
    rfl
  · intro d1 d2 s rest h1 h2 hsys
    simp only [vaillant_set_holiday, h, h1, h2, hsys]
    rfl

/-- Claim C6 witness. -/
theorem vaillant_set_holiday_validation_witness :
    _vaillant_config cfgVaillant = some ("user@example.com", "pw", "vaillant", "czechrepublic") ∧
    strptime_Ymd "2025-02-30" = Except.error PyValueError.dateOutOfRange ∧
    vaillant_set_holiday cfgVaillant [sysOff] "2025-02-30" "2025-03-05" =
      Except.error PyValueError.dateOutOfRange ∧
    strptime_Ymd "2025-03-01" = Except.ok ⟨2025, 3, 1⟩ ∧
    vaillant_set_holiday cfgVaillant [sysOff] "2025-03-01" "2025-03-08" =
      Except.ok ("Holiday mode set: 2025-03-01 to 2025-03-08",
                 [VCall.getSystems, VCall.setHoliday sysOff ⟨2025, 3, 1⟩ ⟨2025, 3, 8⟩]) := by
  have ha := vaillant_set_holiday_validation cfgVaillant
    ("user@example.com", "pw", "vaillant", "czechrepublic") [sysOff] "2025-02-30" "2025-03-05" rfl
  have hb := vaillant_set_holiday_validation cfgVaillant
    ("user@example.com", "pw", "vaillant", "czechrepublic") [sysOff] "2025-03-01" "2025-03-08" rfl
  exact ⟨rfl, rfl, ha.1 _ rfl, rfl,
    (hb.2.2 ⟨2025, 3, 1⟩ ⟨2025, 3, 8⟩ sysOff [] rfl rfl rfl).trans (by rfl)⟩

/-- Claim C7: in `vaillant_status`, a member system none of whose zones has an
active special function contributes the line "Holiday mode: off"; when some
zone's special function is active, the scan renders exactly the first such
zone's function and stops (it yields that single line). -/
theorem vaillant_status_holiday_scan (systems : List VSystem) (s : VSystem)
    (hs : s ∈ systems) :
    ((∀ z ∈ s.zones, zoneSpecialActive z = false) →
      "Holiday mode: off" ∈ statusLines systems) ∧
    (∀ z, s.zones.find? zoneSpecialActive = some z →
      specialFunctionLines s.zones =
        ["Special function: " ++ z.current_special_function.getD ""] ∧
      ("Special function: " ++ z.current_special_function.getD "") ∈ statusLines systems) := by
  have hsub : ∀ x, x ∈ renderSystem s → x ∈ statusLines systems := by
    intro x hx
    simp only [statusLines, List.mem_flatten]
    exact ⟨renderSystem s, List.mem_map_of_mem _ hs, hx⟩
  constructor
  · intro hnone
    apply hsub
    have hfind : s.zones.find? zoneSpecialActive = none :=
      List.find?_eq_none.mpr (by intro z hz; simp [hnone z hz])
    simp [renderSystem, specialFunctionLines_eq, hfind]
  · intro z hz
    have heq : specialFunctionLines s.zones =
        ["Special function: " ++ z.current_special_function.getD ""] := by
      rw [specialFunctionLines_eq, hz]
    exact ⟨heq, hsub _ (by simp [renderSystem, heq])⟩

/-- Claim C7 witness. -/
theorem vaillant_status_holiday_scan_witness :
    (∀ z ∈ sysOff.zones, zoneSpecialActive z = false) ∧
    "Holiday mode: off" ∈ statusLines [sysOff] ∧
    List.find? zoneSpecialActive sysHol.zones = some zoneAway ∧
    specialFunctionLines sysHol.zones = ["Special function: AWAY"] ∧
    "Special function: AWAY" ∈ statusLines [sysHol] := by
  have h1 := (vaillant_status_holiday_scan [sysOff] sysOff (by simp)).1 (by decide)
  have h2 := (vaillant_status_holiday_scan [sysHol] sysHol (by simp)).2 zoneAway (by decide)
  exact ⟨by decide, h1, by decide, h2.1, h2.2⟩

/-- Claim C8: a 200 response whose `data` collection is empty makes
`hue_list_lights` return the literal "No lights found" and `hue_list_scenes`
the literal "No scenes found" — informational messages, not Failures. -/
theorem hue_list_empty_collections (c : Config) (ip key : String)
    (h : _hue_config c = some (ip, key)) :
    (∀ resp : LightsResponse, resp.status_code = 200 → resp.data = [] →
      (hue_list_lights c resp).1 = "No lights found") ∧
    (∀ resp : ScenesResponse, resp.status_code = 200 → resp.data = [] →
      (hue_list_scenes c resp).1 = "No scenes found") := by
  constructor
  · intro resp h200 hdata
    simp [hue_list_lights, h, h200, hdata]
  · intro resp h200 hdata
    simp [hue_list_scenes, h, h200, hdata]

/-- Claim C8 witness. -/
theorem hue_list_empty_collections_witness :
    _hue_config cfgHue = some ("10.0.0.2", "appkey") ∧
    (hue_list_lights cfgHue ⟨200, "", []⟩).1 = "No lights found" ∧
    (hue_list_scenes cfgHue ⟨200, "", []⟩).1 = "No scenes found" :=
  ⟨rfl, (hue_list_empty_collections cfgHue "10.0.0.2" "appkey" rfl).1 ⟨200, "", []⟩ rfl rfl,
   (hue_list_empty_collections cfgHue "10.0.0.2" "appkey" rfl).2 ⟨200, "", []⟩ rfl rfl⟩

/-- Claim C9: `on=false` counts as a provided field (the presence test is
against `None`, not truthiness): the update body is exactly
`{"on": {"on": false}}`, the PUT request is issued, and the
no-fields Failure is not returned. -/
theorem hue_set_light_on_false_counts (c : Config) (resp : HttpResponse)
    (light_id ip key : String) (h : _hue_config c = some (ip, key)) :
    (hue_set_light c resp light_id (some false) none none).2 =
      [⟨HttpMethod.put, "https://" ++ ip ++ "/clip/v2/resource/light/" ++ light_id, key,
        some (HueBody.setLight ⟨some false, none, none⟩)⟩] ∧
    SetLightBody.dumps ⟨some false, none, none⟩ = "\x7b\"on\": \x7b\"on\": false\x7d\x7d" ∧
    (hue_set_light c resp light_id (some false) none none).1 ≠
      "Error: Specify at least one of: on, brightness, color_temp" := by
  have hne : (buildSetLightBody (some false) none none).isEmpty = false := by
    simp [buildSetLightBody, SetLightBody.isEmpty]
  refine ⟨?_, rfl, ?_⟩
  · simp only [hue_set_light, h, hne, Bool.false_eq_true, if_false]
    split <;> rfl
  · simp only [hue_set_light, h, hne, Bool.false_eq_true, if_false]
    split
    · refine string_ne_of_getD _ _ 0 ?_
      show ('L' : Char) ≠ 'E'
      decide
    · refine string_ne_of_getD _ _ 5 ?_
      show (' ' : Char) ≠ ':'
      decide

/-- Claim C9 witness. -/
theorem hue_set_light_on_false_counts_witness :
    _hue_config cfgHue = some ("10.0.0.2", "appkey") ∧
    (hue_set_light cfgHue ⟨200, "ok"⟩ "L7" (some false) none none).2 =
      [⟨HttpMethod.put, "https://10.0.0.2/clip/v2/resource/light/L7", "appkey",
        some (HueBody.setLight ⟨some false, none, none⟩)⟩] ∧
    (hue_set_light cfgHue ⟨200, "ok"⟩ "L7" (some false) none none).1 ≠
      "Error: Specify at least one of: on, brightness, color_temp" := by
  have h := hue_set_light_on_false_counts cfgHue ⟨200, "ok"⟩ "L7" "10.0.0.2" "appkey" rfl
  exact ⟨rfl, h.1.trans (by decide), h.2.2⟩

/-- Claim C10: when Vaillant credentials resolve but the account enumerates zero
systems, every mutating operation returns "Error: No systems found" and the only
API interaction is the enumeration itself — no mutation call is issued. -/
theorem vaillant_ops_zero_systems (c : Config)
    (cred : String × String × String × String) (h : _vaillant_config c = some cred) :
    (∀ t d, vaillant_set_temperature c [] t d =
      ("Error: No systems found", [VCall.getSystems])) ∧
    (vaillant_cancel_temperature_override c [] =
      ("Error: No systems found", [VCall.getSystems])) ∧
    (∀ sd ed d1 d2, strptime_Ymd sd = Except.ok d1 → strptime_Ymd ed = Except.ok d2 →
      vaillant_set_holiday c [] sd ed =
        Except.ok ("Error: No systems found", [VCall.getSystems])) ∧
    (vaillant_cancel_holiday c [] = ("Error: No systems found", [VCall.getSystems])) ∧
    (vaillant_boost_hot_water c [] = ("Error: No systems found", [VCall.getSystems])) ∧
    (∀ t, vaillant_set_hot_water_temperature c [] t =
      ("Error: No systems found", [VCall.getSystems])) := by
  refine ⟨fun t d => by simp [vaillant_set_temperature, h],
    by simp [vaillant_cancel_temperature_override, h], ?_,
    by simp [vaillant_cancel_holiday, h],
    by simp [vaillant_boost_hot_water, h],
    fun t => by simp [vaillant_set_hot_water_temperature, h]⟩
  intro sd ed d1 d2 h1 h2
  simp only [vaillant_set_holiday, h, h1, h2]
  rfl

/-- Claim C10 witness. -/
theorem vaillant_ops_zero_systems_witness :
    _vaillant_config cfgVaillant = some ("user@example.com", "pw", "vaillant", "czechrepublic") ∧
    vaillant_set_temperature cfgVaillant [] "22.0" "3.0" =
      ("Error: No systems found", [VCall.getSystems]) ∧
    strptime_Ymd "2025-06-01" = Except.ok ⟨2025, 6, 1⟩ ∧
    vaillant_set_holiday cfgVaillant [] "2025-06-01" "2025-06-08" =
      Except.ok ("Error: No systems found", [VCall.getSystems]) ∧
    vaillant_boost_hot_water cfgVaillant [] = ("Error: No systems found", [VCall.getSystems]) := by
  have h := vaillant_ops_zero_systems cfgVaillant
    ("user@example.com", "pw", "vaillant", "czechrepublic") rfl
  exact ⟨rfl, h.1 "22.0" "3.0", rfl,
    h.2.2.1 "2025-06-01" "2025-06-08" ⟨2025, 6, 1⟩ ⟨2025, 6, 8⟩ rfl rfl, h.2.2.2.2.1⟩

end MacBridge
